import Mathlib

/-!
Verification of the TrackerAssist RT REST client
(src/TrackerAssist/tracker_assist.py) against its specification.

The embedding models:
  - JSON-ish payload values (strings, plus one level of nested object for
    the CustomFields mapping);
  - Python dict semantics for payload construction (insertion replaces the
    value of an existing key in place and appends new keys at the end,
    matching insertion-ordered dicts);
  - each client method as a pure function from its arguments and a
    transport oracle (mapping a Request to a Response) to the pair of the
    optionally-sent Request and the returned value;
  - Python exceptions (file-open failure, transport failure, KeyError on a
    missing response-body key) as explicit error results.

The multipart files argument of upload_file is not reflected in the
Request body; only its JSON sibling field is, since no property here
depends on the file bytes.
-/

namespace TrackerAssist

/-- Values appearing in a request payload: strings, or the nested
CustomFields object mapping field names to strings. -/
inductive JValue where
  | str (s : String)
  | obj (fields : List (String × String))
deriving DecidableEq

/-- HTTP methods used by the client. -/
inductive Method where
  | get
  | post
  | put
  | delete
deriving DecidableEq

/-- A single HTTP request as built by the client. -/
structure Request where
  method : Method
  url : String
  body : List (String × JValue)
deriving DecidableEq

/-- A response from the transport: status code and parsed JSON body
(modelled as a flat string-to-string object, which is all the client
reads). -/
structure Response where
  status : Nat
  body : List (String × String)
deriving DecidableEq

/-- Result of a call that can raise a Python KeyError. -/
inductive PyResult (α : Type) where
  | ok (a : α)
  | keyError (k : String)
deriving DecidableEq

/-- Result of a call that can raise a Python exception
(connection error from the transport, or file-not-found from open). -/
inductive PyExcept (α : Type) where
  | ok (a : α)
  | exn (msg : String)
deriving DecidableEq

/-- Python dict assignment d[k] = v on an insertion-ordered dict:
replace the value of an existing key in place, else append the pair. -/
def dictInsert {α : Type} : List (String × α) → String → α → List (String × α)
  | [], k, v => [(k, v)]
  | p :: d, k, v => if p.1 = k then (k, v) :: d else p :: dictInsert d k v

/-- Python dict.update: assign every pair of kvs, in order, into d. -/
def dictUpdate {α : Type} (d : List (String × α)) (kvs : List (String × α)) :
    List (String × α) :=
  kvs.foldl (fun acc p => dictInsert acc p.1 p.2) d

/-- Python dict lookup d[k], as an Option. -/
def dictGet {α : Type} : List (String × α) → String → Option α
  | [], _ => none
  | p :: d, k => if p.1 = k then some p.2 else dictGet d k

/-- The field-validation loop shared by the create and update methods:
iterate over the supplied keyword names and return False on the first name
not in the allow-list. -/
def checkFields (allowed : List String) : List String → Bool
  | [] => true
  | k :: ks => if k ∈ allowed then checkFields allowed ks else false

/-- VALID_FIELDS ASSET_FIELDS entry of the source. -/
def ASSET_FIELDS : List String :=
  ["Name", "Description", "Status", "Owner", "HeldBy", "Contact"]

/-- VALID_FIELDS QUEUE_FIELDS entry of the source. -/
def QUEUE_FIELDS : List String :=
  ["Name", "Description", "Lifecycle", "SubjectTag", "CorrespondAddress",
   "CommentAddress"]

/-- VALID_FIELDS TICKET_FIELDS entry of the source (defined there but never
referenced by any method). -/
def TICKET_FIELDS : List String :=
  ["Queue", "Status", "Owner", "Requestors", "Cc", "AdminCc", "Content",
   "ContentType"]

/-- VALID_FIELDS USER_FIELDS entry of the source, including the misspelled
entry Timzone exactly as the source writes it. -/
def USER_FIELDS : List String :=
  ["EmailAddress", "RealName", "NickName", "Gecos", "Lang", "Timzone",
   "FreeformContactInfo", "SetEnabled", "Enabled", "SetPrivileged",
   "CurrentPass", "Pass1", "Pass2", "Organization", "Address1", "Address2",
   "City", "State", "Zip", "Country", "HomePhone", "WorkPhone",
   "MobilePhone", "PagerPhone", "Comments"]

/-- Lift keyword arguments (string valued) into payload pairs. -/
def strPairs (kw : List (String × String)) : List (String × JValue) :=
  kw.map (fun p => (p.1, JValue.str p.2))

/-- Python truthiness of an optional string (None and the empty string are
falsy). -/
def strTruthy : Option String → Bool
  | some s => !(s = "")
  | none => false

/-- Python truthiness of an optional dict (None and the empty dict are
falsy). -/
def dictTruthy : Option (List (String × String)) → Bool
  | some (_ :: _) => true
  | _ => false

/-- Python str.rstrip with the slash character: drop trailing slashes. -/
def rstrip_slash (s : String) : String :=
  ⟨(s.data.reverse.dropWhile (fun c => c == '/')).reverse⟩

/-- The client state established by construction: normalized base URL and
session headers. -/
structure Client where
  server : String
  headers : List (String × String)
deriving DecidableEq

/-- A session whose headers the upload method mutates. -/
structure Session where
  headers : List (String × String)
deriving DecidableEq

/-- A transport oracle that always answers with the given status and an
empty body. -/
def constT (status : Nat) : Request → Response :=
  fun _ => { status := status, body := [] }

/-- A fallible transport oracle that always answers with the given status
and an empty body. -/
def constTO (status : Nat) : Request → Option Response :=
  fun _ => some { status := status, body := [] }

/-- RTClient.__init__: normalize the base URL, then pick the auth mode by
Python truthiness of token, else of username and password; with neither, a
diagnostic is printed and construction still succeeds. The transport is
only consulted (and may raise) in the credentials branch. -/
def RTClient_init (server : String) (token username password : Option String)
    (transport : Request → Option Response) : PyExcept (Client × List String) :=
  let base := rstrip_slash server ++ "/REST/2.0"
  if strTruthy token then
    .ok ({ server := base,
           headers := [("Authorization", "token " ++ token.getD ""),
                       ("Content-Type", "application/json")] }, [])
  else if strTruthy username && strTruthy password then
    match transport { method := .post, url := server,
                      body := [("user", JValue.str (username.getD "")),
                               ("pass", JValue.str (password.getD ""))] } with
    | some _ => .ok ({ server := base, headers := [] }, [])
    | none => .exn "ConnectionError"
  else
    .ok ({ server := base, headers := [] },
         ["Error! No token or credentials supplied - Transactions may fail!"])

/-- RTClient.get_queues. -/
def get_queues (server : String) (transport : Request → Response) :
    Request × Option (List (String × String)) :=
  let req : Request := { method := .get, url := server ++ "/queues/all", body := [] }
  let resp := transport req
  (req, if resp.status = 200 then some resp.body else none)

/-- RTClient.get_queue. -/
def get_queue (server : String) (queue_id : String)
    (transport : Request → Response) : Request × Option (List (String × String)) :=
  let req : Request := { method := .get, url := server ++ "/queue/" ++ queue_id, body := [] }
  let resp := transport req
  (req, if resp.status = 200 then some resp.body else none)

/-- RTClient.get_queue_history: the source issues a GET to /queue/id with
no history suffix, exactly like get_queue. -/
def get_queue_history (server : String) (queue_id : String)
    (transport : Request → Response) : Request × Option (List (String × String)) :=
  let req : Request := { method := .get, url := server ++ "/queue/" ++ queue_id, body := [] }
  let resp := transport req
  (req, if resp.status = 200 then some resp.body else none)

/-- RTClient.create_queue: validate the keyword names against
QUEUE_FIELDS, returning False before any request on the first invalid one;
otherwise POST the payload Name plus keywords and compare the status
against 201. -/
def create_queue (server : String) (name : String) (kwargs : List (String × String))
    (transport : Request → Response) : Option Request × Bool :=
  if checkFields QUEUE_FIELDS (kwargs.map Prod.fst) then
    let req : Request := { method := .post, url := server ++ "/queue",
                           body := dictUpdate [("Name", JValue.str name)] (strPairs kwargs) }
    (some req, (transport req).status == 201)
  else (none, false)

/-- RTClient.update_queue. -/
def update_queue (server : String) (queue_id : String) (kwargs : List (String × String))
    (transport : Request → Response) : Option Request × Bool :=
  if checkFields QUEUE_FIELDS (kwargs.map Prod.fst) then
    let req : Request := { method := .put, url := server ++ "/queue/" ++ queue_id,
                           body := strPairs kwargs }
    (some req, (transport req).status == 201)
  else (none, false)

/-- RTClient.disable_queue. -/
def disable_queue (server : String) (queue_id : String)
    (transport : Request → Response) : Option Request × Bool :=
  let req : Request := { method := .delete, url := server ++ "/queue/" ++ queue_id, body := [] }
  (some req, (transport req).status == 201)

/-- RTClient.get_ticket. -/
def get_ticket (server : String) (ticket_id : String)
    (transport : Request → Response) : Request × Option (List (String × String)) :=
  let req : Request := { method := .get, url := server ++ "/ticket/" ++ ticket_id, body := [] }
  let resp := transport req
  (req, if resp.status = 200 then some resp.body else none)

/-- RTClient.get_ticket_history: unlike get_queue_history, this one really
appends the history suffix. -/
def get_ticket_history (server : String) (ticket_id : String)
    (transport : Request → Response) : Request × Option (List (String × String)) :=
  let req : Request := { method := .get,
                         url := server ++ "/ticket/" ++ ticket_id ++ "/history", body := [] }
  let resp := transport req
  (req, if resp.status = 200 then some resp.body else none)

/-- Payload construction of RTClient.create_ticket: Queue and Subject from
the positional arguments, the CustomFields object when truthy, then the
keyword arguments merged on top when non-empty. -/
def create_ticket_payload (subject : String) (queue : String)
    (custom_fields : Option (List (String × String))) (kwargs : List (String × String)) :
    List (String × JValue) :=
  let payload := [("Queue", JValue.str queue), ("Subject", JValue.str subject)]
  let payload := if dictTruthy custom_fields then
      dictInsert payload "CustomFields" (JValue.obj (custom_fields.getD []))
    else payload
  if kwargs.isEmpty then payload else dictUpdate payload (strPairs kwargs)

/-- RTClient.create_ticket: build the payload from Queue and Subject, the
optional CustomFields object and the keyword arguments, POST it with no
field validation, and on a 201 response look up the _url key of the body
(an unguarded dict access that raises KeyError when absent); any other
status returns None. -/
def create_ticket (server : String) (subject : String) (queue : String)
    (custom_fields : Option (List (String × String))) (kwargs : List (String × String))
    (transport : Request → Response) : Option Request × PyResult (Option String) :=
  let req : Request := { method := .post, url := server ++ "/ticket",
                         body := create_ticket_payload subject queue custom_fields kwargs }
  let resp := transport req
  (some req,
    if resp.status = 201 then
      match dictGet resp.body "_url" with
      | some u => .ok (some u)
      | none => .keyError "_url"
    else .ok none)

/-- RTClient.update_ticket: merge CustomFields (when truthy) with the
keyword arguments, PUT with no field validation, and compare the status
against 200. -/
def update_ticket (server : String) (ticket_id : String)
    (custom_fields : Option (List (String × String))) (kwargs : List (String × String))
    (transport : Request → Response) : Option Request × Bool :=
  let payload := if dictTruthy custom_fields then
      dictUpdate [("CustomFields", JValue.obj (custom_fields.getD []))] (strPairs kwargs)
    else strPairs kwargs
  let req : Request := { method := .put, url := server ++ "/ticket/" ++ ticket_id,
                         body := payload }
  (some req, (transport req).status == 200)

/-- RTClient.post_comment. -/
def post_comment (server : String) (ticket_id : String) (comment : String)
    (content_type : String) (custom_fields : Option (List (String × String)))
    (kwargs : List (String × String)) (transport : Request → Response) :
    Option Request × Bool :=
  let payload := [("Content", JValue.str comment), ("ContentType", JValue.str content_type)]
  let payload := if dictTruthy custom_fields then
      dictInsert payload "CustomFields" (JValue.obj (custom_fields.getD []))
    else payload
  let payload := dictUpdate payload (strPairs kwargs)
  let req : Request := { method := .post,
                         url := server ++ "/ticket/" ++ ticket_id ++ "/comment",
                         body := payload }
  (some req, (transport req).status == 201)

/-- RTClient.upload_file: set the session Content-Type header to the
multipart value, open the file (which may raise), POST (which may raise),
restore the JSON Content-Type header, and compare the status against 200.
There is no try/finally in the source, so a raised exception propagates
with the multipart header still installed. -/
def upload_file (sess : Session) (server : String) (ticket_id : String)
    (file_name : String) (file_ok : Bool) (transport : Request → Option Response) :
    Session × PyExcept Bool :=
  let sess1 : Session :=
    { headers := dictInsert sess.headers "Content-Type" "multipart/form-data" }
  if file_ok then
    let req : Request := { method := .post,
                           url := server ++ "/ticket/" ++ ticket_id ++ "/comment",
                           body := [("Attachment", JValue.str file_name)] }
    match transport req with
    | some resp =>
        let sess2 : Session :=
          { headers := dictInsert sess1.headers "Content-Type" "application/json" }
        (sess2, .ok (resp.status == 200))
    | none => (sess1, .exn "ConnectionError")
  else (sess1, .exn "FileNotFoundError")

/-- RTClient.delete_ticket. -/
def delete_ticket (server : String) (ticket_id : String)
    (transport : Request → Response) : Option Request × Bool :=
  let req : Request := { method := .delete, url := server ++ "/ticket/" ++ ticket_id,
                         body := [] }
  (some req, (transport req).status == 201)

/-- RTClient.raw_search: the query string is passed through as an opaque
parameter. -/
def raw_search (server : String) (ticket_sql : String)
    (transport : Request → Response) : Request × Option (List (String × String)) :=
  let req : Request := { method := .get, url := server ++ "/tickets",
                         body := [("query", JValue.str ticket_sql)] }
  let resp := transport req
  (req, if resp.status = 200 then some resp.body else none)

/-- RTClient.get_asset. -/
def get_asset (server : String) (asset_id : String)
    (transport : Request → Response) : Request × Option (List (String × String)) :=
  let req : Request := { method := .get, url := server ++ "/asset/" ++ asset_id, body := [] }
  let resp := transport req
  (req, if resp.status = 200 then some resp.body else none)

/-- RTClient.create_asset. -/
def create_asset (server : String) (name : String) (kwargs : List (String × String))
    (transport : Request → Response) : Option Request × Bool :=
  if checkFields ASSET_FIELDS (kwargs.map Prod.fst) then
    let req : Request := { method := .post, url := server ++ "/asset",
                           body := dictUpdate [("Name", JValue.str name)] (strPairs kwargs) }
    (some req, (transport req).status == 201)
  else (none, false)

/-- RTClient.update_asset. -/
def update_asset (server : String) (asset_id : String) (kwargs : List (String × String))
    (transport : Request → Response) : Option Request × Bool :=
  if checkFields ASSET_FIELDS (kwargs.map Prod.fst) then
    let req : Request := { method := .put, url := server ++ "/asset/" ++ asset_id,
                           body := strPairs kwargs }
    (some req, (transport req).status == 201)
  else (none, false)

/-- RTClient.delete_asset. -/
def delete_asset (server : String) (asset_id : String)
    (transport : Request → Response) : Option Request × Bool :=
  let req : Request := { method := .delete, url := server ++ "/asset/" ++ asset_id,
                         body := [] }
  (some req, (transport req).status == 201)

/-- RTClient.get_user. -/
def get_user (server : String) (user_id : String)
    (transport : Request → Response) : Request × Option (List (String × String)) :=
  let req : Request := { method := .get, url := server ++ "/user/" ++ user_id, body := [] }
  let resp := transport req
  (req, if resp.status = 200 then some resp.body else none)

/-- RTClient.get_user_history. -/
def get_user_history (server : String) (user_id : String)
    (transport : Request → Response) : Request × Option (List (String × String)) :=
  let req : Request := { method := .get,
                         url := server ++ "/user/" ++ user_id ++ "/history", body := [] }
  let resp := transport req
  (req, if resp.status = 200 then some resp.body else none)

/-- RTClient.create_user. -/
def create_user (server : String) (username : String) (kwargs : List (String × String))
    (transport : Request → Response) : Option Request × Bool :=
  if checkFields USER_FIELDS (kwargs.map Prod.fst) then
    let req : Request := { method := .post, url := server ++ "/user",
                           body := dictUpdate [("Name", JValue.str username)] (strPairs kwargs) }
    (some req, (transport req).status == 201)
  else (none, false)

/-- RTClient.update_user. -/
def update_user (server : String) (user_id : String) (kwargs : List (String × String))
    (transport : Request → Response) : Option Request × Bool :=
  if checkFields USER_FIELDS (kwargs.map Prod.fst) then
    let req : Request := { method := .put, url := server ++ "/user/" ++ user_id,
                           body := strPairs kwargs }
    (some req, (transport req).status == 201)
  else (none, false)

/-- RTClient.disable_user. -/
def disable_user (server : String) (user_id : String)
    (transport : Request → Response) : Option Request × Bool :=
  let req : Request := { method := .delete, url := server ++ "/user/" ++ user_id,
                         body := [] }
  (some req, (transport req).status == 201)

/-! Helper lemmas about the validation loop, the dict operations and the
URL normalization. -/

theorem checkFields_eq_true_iff (allowed : List String) (ks : List String) :
    checkFields allowed ks = true ↔ ∀ k ∈ ks, k ∈ allowed := by
  induction ks with
  | nil => simp [checkFields]
  | cons k ks ih =>
    by_cases h : k ∈ allowed
    · simp [checkFields, h, ih]
    · simp [checkFields, h]

theorem dictGet_dictInsert_self {α : Type} (d : List (String × α)) (k : String) (v : α) :
    dictGet (dictInsert d k v) k = some v := by
  induction d with
  | nil => simp [dictInsert, dictGet]
  | cons p d ih =>
    by_cases h : p.1 = k
    · simp [dictInsert, h, dictGet]
    · simp [dictInsert, h, dictGet, ih]

theorem dictGet_dictInsert_ne {α : Type} (d : List (String × α)) (k k' : String) (v : α)
    (h : k' ≠ k) : dictGet (dictInsert d k v) k' = dictGet d k' := by
  have hk : ¬ k = k' := fun hk => h hk.symm
  induction d with
  | nil => simp [dictInsert, dictGet, hk]
  | cons p d ih =>
    by_cases hp : p.1 = k
    · subst hp
      simp [dictInsert, dictGet, hk]
    · simp [dictInsert, hp, dictGet, ih]

theorem mem_keys_dictInsert {α : Type} (d : List (String × α)) (k k' : String) (v : α)
    (h : k' ∈ d.map Prod.fst) : k' ∈ (dictInsert d k v).map Prod.fst := by
  induction d with
  | nil => simp at h
  | cons p d ih =>
    by_cases hp : p.1 = k
    · simp [dictInsert, hp] at h ⊢
      rcases h with h | h
      · exact Or.inl (hp ▸ h)
      · exact Or.inr h
    · simp [dictInsert, hp] at h ⊢
      rcases h with h | h
      · exact Or.inl h
      · exact Or.inr (by simpa using ih (by simpa using h))

theorem dictGet_dictUpdate_notMem {α : Type} (kvs : List (String × α)) (k : String)
    (h : k ∉ kvs.map Prod.fst) :
    ∀ d, dictGet (dictUpdate d kvs) k = dictGet d k := by
  induction kvs with
  | nil => intro d; rfl
  | cons p kvs ih =>
    intro d
    simp only [List.map_cons, List.mem_cons, not_or] at h
    show dictGet (dictUpdate (dictInsert d p.1 p.2) kvs) k = dictGet d k
    rw [ih h.2, dictGet_dictInsert_ne _ _ _ _ h.1]

theorem mem_keys_dictUpdate {α : Type} (kvs : List (String × α)) (k : String) :
    ∀ d, k ∈ d.map Prod.fst → k ∈ (dictUpdate d kvs).map Prod.fst := by
  induction kvs with
  | nil => intro d h; exact h
  | cons p kvs ih =>
    intro d h
    show k ∈ (dictUpdate (dictInsert d p.1 p.2) kvs).map Prod.fst
    exact ih _ (mem_keys_dictInsert _ _ _ _ h)

theorem rstrip_slash_append (s : String) :
    ∃ k, s.data = (rstrip_slash s).data ++ List.replicate k '/' := by
  refine ⟨(s.data.reverse.takeWhile (fun c => c == '/')).length, ?_⟩
  have h1 : s.data.reverse.takeWhile (fun c => c == '/')
      = List.replicate (s.data.reverse.takeWhile (fun c => c == '/')).length '/' := by
    refine List.eq_replicate_length.mpr ?_
    intro b hb
    simpa using List.mem_takeWhile_imp hb
  have hrep : (s.data.reverse.takeWhile (fun c => c == '/')).reverse
      = List.replicate (s.data.reverse.takeWhile (fun c => c == '/')).length '/' := by
    conv_lhs => rw [h1]
    rw [List.reverse_replicate]
  have hsplit := List.takeWhile_append_dropWhile (fun c => c == '/') s.data.reverse
  have hs : s.data = (s.data.reverse.dropWhile (fun c => c == '/')).reverse
      ++ (s.data.reverse.takeWhile (fun c => c == '/')).reverse := by
    conv_lhs => rw [← List.reverse_reverse s.data, ← hsplit]
    rw [List.reverse_append]
  have hgoal : s.data = (s.data.reverse.dropWhile (fun c => c == '/')).reverse
      ++ List.replicate (s.data.reverse.takeWhile (fun c => c == '/')).length '/' := by
    conv_lhs => rw [hs]
    rw [hrep]
  simpa [rstrip_slash] using hgoal

theorem strPairs_keys (kw : List (String × String)) :
    (strPairs kw).map Prod.fst = kw.map Prod.fst := by
  simp [strPairs]

theorem validation_branch (allowed : List String) (ks : List String)
    (v : Option Request × Bool) (hv : v.1.isSome = true) :
    (((if checkFields allowed ks then v else (none, false)).1.isSome = true)
        ↔ ∀ k ∈ ks, k ∈ allowed)
    ∧ ((∃ k ∈ ks, k ∉ allowed) →
        (if checkFields allowed ks then v else (none, false)) = (none, false)) := by
  by_cases h : checkFields allowed ks = true
  · rw [if_pos h]
    refine ⟨⟨fun _ => (checkFields_eq_true_iff _ _).mp h, fun _ => hv⟩, ?_⟩
    rintro ⟨k, hk, hnk⟩
    exact absurd ((checkFields_eq_true_iff _ _).mp h k hk) hnk
  · rw [if_neg h]
    have h2 : ¬ ∀ k ∈ ks, k ∈ allowed :=
      fun hall => h ((checkFields_eq_true_iff _ _).mpr hall)
    exact ⟨⟨fun hs => absurd hs (by simp), fun hall => absurd hall h2⟩, fun _ => rfl⟩

theorem create_queue_validation (server name : String) (kw : List (String × String))
    (t : Request → Response) :
    ((create_queue server name kw t).1.isSome = true ↔ ∀ k ∈ kw.map Prod.fst, k ∈ QUEUE_FIELDS)
    ∧ ((∃ k ∈ kw.map Prod.fst, k ∉ QUEUE_FIELDS) →
        create_queue server name kw t = (none, false)) :=
  validation_branch QUEUE_FIELDS (kw.map Prod.fst) _ rfl

theorem update_queue_validation (server qid : String) (kw : List (String × String))
    (t : Request → Response) :
    ((update_queue server qid kw t).1.isSome = true ↔ ∀ k ∈ kw.map Prod.fst, k ∈ QUEUE_FIELDS)
    ∧ ((∃ k ∈ kw.map Prod.fst, k ∉ QUEUE_FIELDS) →
        update_queue server qid kw t = (none, false)) :=
  validation_branch QUEUE_FIELDS (kw.map Prod.fst) _ rfl

theorem create_asset_validation (server name : String) (kw : List (String × String))
    (t : Request → Response) :
    ((create_asset server name kw t).1.isSome = true ↔ ∀ k ∈ kw.map Prod.fst, k ∈ ASSET_FIELDS)
    ∧ ((∃ k ∈ kw.map Prod.fst, k ∉ ASSET_FIELDS) →
        create_asset server name kw t = (none, false)) :=
  validation_branch ASSET_FIELDS (kw.map Prod.fst) _ rfl

theorem update_asset_validation (server aid : String) (kw : List (String × String))
    (t : Request → Response) :
    ((update_asset server aid kw t).1.isSome = true ↔ ∀ k ∈ kw.map Prod.fst, k ∈ ASSET_FIELDS)
    ∧ ((∃ k ∈ kw.map Prod.fst, k ∉ ASSET_FIELDS) →
        update_asset server aid kw t = (none, false)) :=
  validation_branch ASSET_FIELDS (kw.map Prod.fst) _ rfl

theorem create_user_validation (server uname : String) (kw : List (String × String))
    (t : Request → Response) :
    ((create_user server uname kw t).1.isSome = true ↔ ∀ k ∈ kw.map Prod.fst, k ∈ USER_FIELDS)
    ∧ ((∃ k ∈ kw.map Prod.fst, k ∉ USER_FIELDS) →
        create_user server uname kw t = (none, false)) :=
  validation_branch USER_FIELDS (kw.map Prod.fst) _ rfl

theorem update_user_validation (server uid : String) (kw : List (String × String))
    (t : Request → Response) :
    ((update_user server uid kw t).1.isSome = true ↔ ∀ k ∈ kw.map Prod.fst, k ∈ USER_FIELDS)
    ∧ ((∃ k ∈ kw.map Prod.fst, k ∉ USER_FIELDS) →
        update_user server uid kw t = (none, false)) :=
  validation_branch USER_FIELDS (kw.map Prod.fst) _ rfl

theorem create_ticket_payload_required (subject queue : String)
    (cf : Option (List (String × String))) (kw : List (String × String)) :
    "Queue" ∈ (create_ticket_payload subject queue cf kw).map Prod.fst
    ∧ "Subject" ∈ (create_ticket_payload subject queue cf kw).map Prod.fst
    ∧ ("Queue" ∉ kw.map Prod.fst →
        dictGet (create_ticket_payload subject queue cf kw) "Queue" = some (JValue.str queue))
    ∧ ("Subject" ∉ kw.map Prod.fst →
        dictGet (create_ticket_payload subject queue cf kw) "Subject"
          = some (JValue.str subject)) := by
  have hbase : ∀ key, key = "Queue" ∨ key = "Subject" →
      key ∈ ([("Queue", JValue.str queue), ("Subject", JValue.str subject)]).map Prod.fst := by
    rintro key (h | h) <;> simp [h]
  unfold create_ticket_payload
  by_cases hcf : dictTruthy cf = true <;> by_cases hkw : kw.isEmpty = true <;>
      simp only [hcf, hkw, if_true, if_false, Bool.false_eq_true, if_neg, ite_true, ite_false]
  · -- custom fields truthy, kwargs empty
    refine ⟨mem_keys_dictInsert _ _ _ _ (hbase _ (Or.inl rfl)),
            mem_keys_dictInsert _ _ _ _ (hbase _ (Or.inr rfl)), ?_, ?_⟩
    · intro _
      rw [dictGet_dictInsert_ne _ _ _ _ (by decide)]
      rfl
    · intro _
      rw [dictGet_dictInsert_ne _ _ _ _ (by decide)]
      rfl
  · -- custom fields truthy, kwargs non-empty
    refine ⟨mem_keys_dictUpdate _ _ _ (mem_keys_dictInsert _ _ _ _ (hbase _ (Or.inl rfl))),
            mem_keys_dictUpdate _ _ _ (mem_keys_dictInsert _ _ _ _ (hbase _ (Or.inr rfl))),
            ?_, ?_⟩
    · intro h
      rw [dictGet_dictUpdate_notMem _ _ (by rw [strPairs_keys]; exact h),
          dictGet_dictInsert_ne _ _ _ _ (by decide)]
      rfl
    · intro h
      rw [dictGet_dictUpdate_notMem _ _ (by rw [strPairs_keys]; exact h),
          dictGet_dictInsert_ne _ _ _ _ (by decide)]
      rfl
  · -- custom fields falsy, kwargs empty
    refine ⟨hbase _ (Or.inl rfl), hbase _ (Or.inr rfl), fun _ => rfl, fun _ => rfl⟩
  · -- custom fields falsy, kwargs non-empty
    refine ⟨mem_keys_dictUpdate _ _ _ (hbase _ (Or.inl rfl)),
            mem_keys_dictUpdate _ _ _ (hbase _ (Or.inr rfl)), ?_, ?_⟩
    · intro h
      rw [dictGet_dictUpdate_notMem _ _ (by rw [strPairs_keys]; exact h)]
      rfl
    · intro h
      rw [dictGet_dictUpdate_notMem _ _ (by rw [strPairs_keys]; exact h)]
      rfl

theorem rstrip_slash_no_trailing (s : String) (c : Char)
    (h : (rstrip_slash s).data.getLast? = some c) : c ≠ '/' := by
  have hd : ((s.data.reverse.dropWhile (fun c => c == '/')).reverse).getLast?
      = (s.data.reverse.dropWhile (fun c => c == '/')).head? :=
    List.getLast?_reverse _
  rw [rstrip_slash] at h
  rw [hd] at h
  have hnot := List.head?_dropWhile_not (fun c => c == '/') s.data.reverse
  rw [h] at hnot
  simp at hnot
  simpa using hnot

/-! Claim theorems. -/

/-- C1: for queue, asset and user, the create and update methods pass field
validation, and hence send their request, exactly when every supplied
keyword name belongs to the resource allow-list (compared case-sensitively
by exact string equality); whenever some supplied name is outside the
allow-list, the method returns False with no request constructed or sent. -/
theorem C1_validation_iff_subset (server name aname qid aid uname uid : String)
    (qkw akw ukw : List (String × String)) (t : Request → Response) :
    (((create_queue server name qkw t).1.isSome = true
        ↔ ∀ k ∈ qkw.map Prod.fst, k ∈ QUEUE_FIELDS)
      ∧ ((∃ k ∈ qkw.map Prod.fst, k ∉ QUEUE_FIELDS) →
          create_queue server name qkw t = (none, false)))
    ∧ (((update_queue server qid qkw t).1.isSome = true
        ↔ ∀ k ∈ qkw.map Prod.fst, k ∈ QUEUE_FIELDS)
      ∧ ((∃ k ∈ qkw.map Prod.fst, k ∉ QUEUE_FIELDS) →
          update_queue server qid qkw t = (none, false)))
    ∧ (((create_asset server aname akw t).1.isSome = true
        ↔ ∀ k ∈ akw.map Prod.fst, k ∈ ASSET_FIELDS)
      ∧ ((∃ k ∈ akw.map Prod.fst, k ∉ ASSET_FIELDS) →
          create_asset server aname akw t = (none, false)))
    ∧ (((update_asset server aid akw t).1.isSome = true
        ↔ ∀ k ∈ akw.map Prod.fst, k ∈ ASSET_FIELDS)
      ∧ ((∃ k ∈ akw.map Prod.fst, k ∉ ASSET_FIELDS) →
          update_asset server aid akw t = (none, false)))
    ∧ (((create_user server uname ukw t).1.isSome = true
        ↔ ∀ k ∈ ukw.map Prod.fst, k ∈ USER_FIELDS)
      ∧ ((∃ k ∈ ukw.map Prod.fst, k ∉ USER_FIELDS) →
          create_user server uname ukw t = (none, false)))
    ∧ (((update_user server uid ukw t).1.isSome = true
        ↔ ∀ k ∈ ukw.map Prod.fst, k ∈ USER_FIELDS)
      ∧ ((∃ k ∈ ukw.map Prod.fst, k ∉ USER_FIELDS) →
          update_user server uid ukw t = (none, false))) :=
  ⟨create_queue_validation server name qkw t,
   update_queue_validation server qid qkw t,
   create_asset_validation server aname akw t,
   update_asset_validation server aid akw t,
   create_user_validation server uname ukw t,
   update_user_validation server uid ukw t⟩

/-- Witness for C1: a keyword outside the queue allow-list makes
create_queue return False with no request. -/
theorem C1_validation_iff_subset_witness :
    create_queue "http://s/REST/2.0" "n" [("Bogus", "x")] (constT 201) = (none, false) := by
  have h := C1_validation_iff_subset "http://s/REST/2.0" "n" "a" "q" "i" "u" "j"
      [("Bogus", "x")] [] [] (constT 201)
  exact h.1.2 ⟨"Bogus", by simp, by decide⟩

/-- C2: the source performs no field validation at all in create_ticket
and update_ticket: with the keyword name Bogus, which is not in
TICKET_FIELDS, both methods still construct and send their request
(TICKET_FIELDS is defined in the source but never consulted), contradicting
the claimed client-side short-circuit before any network call. -/
theorem C2_ticket_validation_missing :
    "Bogus" ∉ TICKET_FIELDS
    ∧ (create_ticket "http://s/REST/2.0" "subj" "General" none [("Bogus", "x")]
        (constT 404)).1.isSome = true
    ∧ (update_ticket "http://s/REST/2.0" "7" none [("Bogus", "x")]
        (constT 404)).1.isSome = true :=
  ⟨by decide, rfl, rfl⟩

/-- C5: the source USER_FIELDS allow-list misspells the timezone field as
Timzone, so the field name Timezone of the specification table is not in
the allow-list: create_user and update_user supplying Timezone return
False locally with no request sent. -/
theorem C5_timezone_not_in_allow_list :
    "Timezone" ∉ USER_FIELDS
    ∧ "Timzone" ∈ USER_FIELDS
    ∧ create_user "http://s/REST/2.0" "alice" [("Timezone", "UTC")] (constT 201)
        = (none, false)
    ∧ update_user "http://s/REST/2.0" "12" [("Timezone", "UTC")] (constT 201)
        = (none, false) :=
  ⟨by decide, by decide, rfl, rfl⟩

/-- C3: against a transport answering any fixed status, each mutation
method returns true exactly when the status equals its documented success
code: 201 for create, update and disable/delete of queue, asset and user,
for delete_ticket and for post_comment; 200 for update_ticket and
upload_file. The equality with the exact code rules out any generic 2xx
acceptance. -/
theorem C3_exact_status_codes (server name aname qid aid uid uname tid comment ct fn : String)
    (sess : Session) (qkw akw ukw tkw : List (String × String))
    (cf : Option (List (String × String))) (status : Nat)
    (hq : ∀ k ∈ qkw.map Prod.fst, k ∈ QUEUE_FIELDS)
    (ha : ∀ k ∈ akw.map Prod.fst, k ∈ ASSET_FIELDS)
    (hu : ∀ k ∈ ukw.map Prod.fst, k ∈ USER_FIELDS) :
    (create_queue server name qkw (constT status)).2 = (status == 201)
    ∧ (update_queue server qid qkw (constT status)).2 = (status == 201)
    ∧ (disable_queue server qid (constT status)).2 = (status == 201)
    ∧ (create_asset server aname akw (constT status)).2 = (status == 201)
    ∧ (update_asset server aid akw (constT status)).2 = (status == 201)
    ∧ (delete_asset server aid (constT status)).2 = (status == 201)
    ∧ (create_user server uname ukw (constT status)).2 = (status == 201)
    ∧ (update_user server uid ukw (constT status)).2 = (status == 201)
    ∧ (disable_user server uid (constT status)).2 = (status == 201)
    ∧ (delete_ticket server tid (constT status)).2 = (status == 201)
    ∧ (post_comment server tid comment ct cf tkw (constT status)).2 = (status == 201)
    ∧ (update_ticket server tid cf tkw (constT status)).2 = (status == 200)
    ∧ (upload_file sess server tid fn true (constTO status)).2
        = PyExcept.ok (status == 200) := by
  have hq' := (checkFields_eq_true_iff QUEUE_FIELDS (qkw.map Prod.fst)).mpr hq
  have ha' := (checkFields_eq_true_iff ASSET_FIELDS (akw.map Prod.fst)).mpr ha
  have hu' := (checkFields_eq_true_iff USER_FIELDS (ukw.map Prod.fst)).mpr hu
  refine ⟨?_, ?_, ?_, ?_, ?_, ?_, ?_, ?_, ?_, ?_, ?_, ?_, ?_⟩
  · simp [create_queue, hq', constT]
  · simp [update_queue, hq', constT]
  · simp [disable_queue, constT]
  · simp [create_asset, ha', constT]
  · simp [update_asset, ha', constT]
  · simp [delete_asset, constT]
  · simp [create_user, hu', constT]
  · simp [update_user, hu', constT]
  · simp [disable_user, constT]
  · simp [delete_ticket, constT]
  · simp [post_comment, constT]
  · simp [update_ticket, constT]
  · simp [upload_file, constTO]

/-- Witness for C3: an adjacent status is rejected where 201 is expected,
and accepted where 200 is expected. -/
theorem C3_exact_status_codes_witness :
    (update_queue "s" "q" [] (constT 200)).2 = false
    ∧ (update_ticket "s" "7" none [] (constT 200)).2 = true := by
  have h := C3_exact_status_codes "s" "n" "a" "q" "i" "u" "un" "7" "c" "text/plain" "f"
      { headers := [] } [] [] [] [] none 200 (by simp) (by simp) (by simp)
  obtain ⟨_, h2, _, _, _, _, _, _, _, _, _, h12, _⟩ := h
  constructor
  · rw [h2]
    decide
  · rw [h12]
    decide

/-- C4 counterexample: create_queue with the allow-listed keyword Name
passes validation, so this is validated use, yet the sent payload binds
Name to the keyword value B rather than to the positional argument A: a
supplied optional field overrides the required field. -/
theorem C4_required_override_cex :
    (create_queue "http://s/REST/2.0" "A" [("Name", "B")] (constT 201)).1 =
      some { method := Method.post, url := "http://s/REST/2.0/queue",
             body := [("Name", JValue.str "B")] }
    ∧ JValue.str "B" ≠ JValue.str "A" :=
  ⟨by decide, by decide⟩

/-- C4 amended: every creation payload contains its required keys, and
each required key is bound to the positional argument whenever the caller
does not also supply that key as an optional field; the queue and asset
allow-lists permit the clashing keyword Name and tickets are not validated
at all, while for user the allow-list excludes Name, so there the binding
is unconditional on every sent request. -/
theorem C4_required_fields (server name aname subject queue uname : String)
    (cf : Option (List (String × String)))
    (qkw akw ukw tkw : List (String × String)) (t : Request → Response)
    (reqQ reqA reqU reqT : Request)
    (hQ : (create_queue server name qkw t).1 = some reqQ)
    (hA : (create_asset server aname akw t).1 = some reqA)
    (hU : (create_user server uname ukw t).1 = some reqU)
    (hT : (create_ticket server subject queue cf tkw t).1 = some reqT) :
    ("Name" ∈ reqQ.body.map Prod.fst
      ∧ ("Name" ∉ qkw.map Prod.fst → dictGet reqQ.body "Name" = some (JValue.str name)))
    ∧ ("Name" ∈ reqA.body.map Prod.fst
      ∧ ("Name" ∉ akw.map Prod.fst → dictGet reqA.body "Name" = some (JValue.str aname)))
    ∧ ("Name" ∈ reqU.body.map Prod.fst
      ∧ dictGet reqU.body "Name" = some (JValue.str uname))
    ∧ ("Queue" ∈ reqT.body.map Prod.fst
      ∧ "Subject" ∈ reqT.body.map Prod.fst
      ∧ ("Queue" ∉ tkw.map Prod.fst → dictGet reqT.body "Queue" = some (JValue.str queue))
      ∧ ("Subject" ∉ tkw.map Prod.fst →
          dictGet reqT.body "Subject" = some (JValue.str subject))) := by
  have hcq : checkFields QUEUE_FIELDS (qkw.map Prod.fst) = true := by
    by_contra hc
    rw [Bool.not_eq_true] at hc
    simp [create_queue, hc] at hQ
  have hca : checkFields ASSET_FIELDS (akw.map Prod.fst) = true := by
    by_contra hc
    rw [Bool.not_eq_true] at hc
    simp [create_asset, hc] at hA
  have hcu : checkFields USER_FIELDS (ukw.map Prod.fst) = true := by
    by_contra hc
    rw [Bool.not_eq_true] at hc
    simp [create_user, hc] at hU
  simp only [create_queue, hcq, if_true, Option.some.injEq] at hQ
  simp only [create_asset, hca, if_true, Option.some.injEq] at hA
  simp only [create_user, hcu, if_true, Option.some.injEq] at hU
  simp only [create_ticket, Option.some.injEq] at hT
  have hbQ : reqQ.body = dictUpdate [("Name", JValue.str name)] (strPairs qkw) := by
    rw [← hQ]
  have hbA : reqA.body = dictUpdate [("Name", JValue.str aname)] (strPairs akw) := by
    rw [← hA]
  have hbU : reqU.body = dictUpdate [("Name", JValue.str uname)] (strPairs ukw) := by
    rw [← hU]
  have hbT : reqT.body = create_ticket_payload subject queue cf tkw := by
    rw [← hT]
  refine ⟨⟨?_, ?_⟩, ⟨?_, ?_⟩, ⟨?_, ?_⟩, ?_⟩
  · rw [hbQ]
    exact mem_keys_dictUpdate _ _ _ (by simp)
  · intro h
    rw [hbQ, dictGet_dictUpdate_notMem _ _ (by rw [strPairs_keys]; exact h)]
    rfl
  · rw [hbA]
    exact mem_keys_dictUpdate _ _ _ (by simp)
  · intro h
    rw [hbA, dictGet_dictUpdate_notMem _ _ (by rw [strPairs_keys]; exact h)]
    rfl
  · rw [hbU]
    exact mem_keys_dictUpdate _ _ _ (by simp)
  · have hnm : "Name" ∉ ukw.map Prod.fst := by
      intro hmem
      have hin := (checkFields_eq_true_iff _ _).mp hcu "Name" hmem
      revert hin
      decide
    rw [hbU, dictGet_dictUpdate_notMem _ _ (by rw [strPairs_keys]; exact hnm)]
    rfl
  · rw [hbT]
    exact create_ticket_payload_required subject queue cf tkw

/-- Witness for C4: with no keyword arguments every required key is bound
to its positional argument; instantiated for the queue payload. -/
theorem C4_required_fields_witness :
    dictGet [("Name", JValue.str "A")] "Name" = some (JValue.str "A") := by
  have h := C4_required_fields "s" "A" "B" "sub" "Q" "u" none [] [] [] [] (constT 201)
      { method := Method.post, url := "s/queue", body := [("Name", JValue.str "A")] }
      { method := Method.post, url := "s/asset", body := [("Name", JValue.str "B")] }
      { method := Method.post, url := "s/user", body := [("Name", JValue.str "u")] }
      { method := Method.post, url := "s/ticket",
        body := [("Queue", JValue.str "Q"), ("Subject", JValue.str "sub")] }
      (by decide) (by decide) (by decide) (by decide)
  exact h.1.2 (by simp)

/-- C6: create_ticket yields a URL string only on status exactly 201: any
other status yields Python None; a reported URL forces status 201 with
that URL stored under the body key _url, and on a 201 response carrying
the key the stored URL is returned. -/
theorem C6_create_ticket_url (server subject queue : String)
    (cf : Option (List (String × String))) (kw : List (String × String))
    (status : Nat) (rbody : List (String × String)) :
    (status ≠ 201 →
      (create_ticket server subject queue cf kw
        (fun _ => { status := status, body := rbody })).2 = PyResult.ok none)
    ∧ (∀ u, (create_ticket server subject queue cf kw
        (fun _ => { status := status, body := rbody })).2 = PyResult.ok (some u) →
      status = 201 ∧ dictGet rbody "_url" = some u)
    ∧ (status = 201 → ∀ u, dictGet rbody "_url" = some u →
      (create_ticket server subject queue cf kw
        (fun _ => { status := status, body := rbody })).2 = PyResult.ok (some u)) := by
  refine ⟨?_, ?_, ?_⟩
  · intro h
    simp [create_ticket, h]
  · intro u h
    by_cases hs : status = 201
    · subst hs
      refine ⟨rfl, ?_⟩
      cases hu : dictGet rbody "_url" with
      | some v =>
        simp [create_ticket, hu] at h
        rw [h]
      | none => simp [create_ticket, hu] at h
    · simp [create_ticket, hs] at h
  · intro hs u hu
    subst hs
    simp [create_ticket, hu]

/-- Witness for C6: a 404 response yields None. -/
theorem C6_create_ticket_url_witness :
    (create_ticket "s" "t" "G" none []
      (fun _ => { status := 404, body := [] })).2 = PyResult.ok none := by
  have h := C6_create_ticket_url "s" "t" "G" none [] 404 []
  exact h.1 (by decide)

/-- C7 counterexample: when the POST raises (the transport fails to
deliver a response), upload_file propagates the exception with the
multipart header still installed on the session: the Content-Type header
is not restored on every outcome, and the multipart value is observable
afterwards. -/
theorem C7_header_restore_cex :
    (upload_file { headers := [("Content-Type", "application/json")] }
        "http://s/REST/2.0" "7" "f.txt" true (fun _ => none)).1.headers
      = [("Content-Type", "multipart/form-data")]
    ∧ dictGet (upload_file { headers := [("Content-Type", "application/json")] }
        "http://s/REST/2.0" "7" "f.txt" true (fun _ => none)).1.headers "Content-Type"
      ≠ some "application/json"
    ∧ (upload_file { headers := [("Content-Type", "application/json")] }
        "http://s/REST/2.0" "7" "f.txt" true (fun _ => none)).2
      = PyExcept.exn "ConnectionError" :=
  ⟨by decide, by decide, by decide⟩

/-- C7 amended: whenever upload_file completes without a raised exception,
that is, the file opened and a response of any status arrived, the session
Content-Type header is restored to application/json; when an exception
propagates, the multipart value persists on the session. -/
theorem C7_header_restored (sess : Session) (server tid fn : String) (file_ok : Bool)
    (transport : Request → Option Response) :
    (∀ b, (upload_file sess server tid fn file_ok transport).2 = PyExcept.ok b →
      dictGet (upload_file sess server tid fn file_ok transport).1.headers "Content-Type"
        = some "application/json")
    ∧ (∀ e, (upload_file sess server tid fn file_ok transport).2 = PyExcept.exn e →
      dictGet (upload_file sess server tid fn file_ok transport).1.headers "Content-Type"
        = some "multipart/form-data") := by
  cases file_ok with
  | false =>
    constructor
    · intro b hb
      simp [upload_file] at hb
    · intro e he
      simp [upload_file, dictGet_dictInsert_self]
  | true =>
    cases htr : transport ⟨Method.post, server ++ "/ticket/" ++ tid ++ "/comment",
        [("Attachment", JValue.str fn)]⟩ with
    | some resp =>
      constructor
      · intro b hb
        simp [upload_file, htr, dictGet_dictInsert_self]
      · intro e he
        simp [upload_file, htr] at he
    | none =>
      constructor
      · intro b hb
        simp [upload_file, htr] at hb
      · intro e he
        simp [upload_file, htr, dictGet_dictInsert_self]

/-- Witness for C7 amended: a delivered 500 response still restores the
JSON header. -/
theorem C7_header_restored_witness :
    dictGet (upload_file { headers := [] } "s" "1" "f" true (constTO 500)).1.headers
      "Content-Type" = some "application/json" := by
  have h := C7_header_restored { headers := [] } "s" "1" "f" true (constTO 500)
  exact h.1 false (by decide)

/-- C8: construction with neither token nor credentials never raises: the
client is built with the base URL equal to the input stripped of every
trailing slash with the API suffix appended, the diagnostic is emitted,
and the transport is never consulted. -/
theorem C8_init_without_credentials (server : String)
    (transport : Request → Option Response) :
    RTClient_init server none none none transport
      = PyExcept.ok ({ server := rstrip_slash server ++ "/REST/2.0", headers := [] },
          ["Error! No token or credentials supplied - Transactions may fail!"])
    ∧ (∃ k, server.data = (rstrip_slash server).data ++ List.replicate k '/')
    ∧ (∀ c, (rstrip_slash server).data.getLast? = some c → c ≠ '/') :=
  ⟨rfl, rstrip_slash_append server, fun c h => rstrip_slash_no_trailing server c h⟩

/-- Witness for C8: a server address with two trailing slashes is
normalized and construction succeeds with the diagnostic. -/
theorem C8_init_without_credentials_witness :
    RTClient_init "http://rt.local//" none none none (fun _ => none)
      = PyExcept.ok ({ server := "http://rt.local/REST/2.0", headers := [] },
          ["Error! No token or credentials supplied - Transactions may fail!"]) := by
  have h := C8_init_without_credentials "http://rt.local//" (fun _ => none)
  exact h.1.trans (by decide)

/-- C10: on a 201 response whose body lacks the _url key, create_ticket
raises KeyError instead of returning an absent value; with the key present
it returns the URL, so the 201 path is total exactly under the
precondition that the body contains _url. -/
theorem C10_create_ticket_keyerror (server subject queue : String)
    (cf : Option (List (String × String))) (kw : List (String × String))
    (rbody : List (String × String)) :
    (dictGet rbody "_url" = none →
      (create_ticket server subject queue cf kw
        (fun _ => { status := 201, body := rbody })).2 = PyResult.keyError "_url")
    ∧ (∀ u, dictGet rbody "_url" = some u →
      (create_ticket server subject queue cf kw
        (fun _ => { status := 201, body := rbody })).2 = PyResult.ok (some u)) := by
  constructor
  · intro h
    simp [create_ticket, h]
  · intro u h
    simp [create_ticket, h]

/-- Witness for C10: a 201 body carrying only an id key makes
create_ticket raise KeyError on _url. -/
theorem C10_create_ticket_keyerror_witness :
    (create_ticket "s" "t" "G" none []
      (fun _ => { status := 201, body := [("id", "55")] })).2
      = PyResult.keyError "_url" := by
  have h := C10_create_ticket_keyerror "s" "t" "G" none [] [("id", "55")]
  exact h.1 (by decide)

/-- C9: get_queue_history issues the same GET to the /queue/id URL as
get_queue, with no history suffix, and returns the identical value for
every transport answer: the two methods are observationally equal. -/
theorem C9_queue_history_same_as_get_queue (server qid : String)
    (t : Request → Response) :
    get_queue_history server qid t = get_queue server qid t
    ∧ (get_queue_history server qid t).1.url = server ++ "/queue/" ++ qid
    ∧ (get_queue_history server qid t).1.method = Method.get :=
  ⟨rfl, rfl, rfl⟩

end TrackerAssist
